import Mathlib

/-!
RISC-V alternative sites and the SpacemiT K1 combo PHY.

A shallow embedding of

* `arch/riscv/include/asm/alternative-macros.h`: the assembler macros that lay
  out an alternative site (`ALT_ENTRY`, `ALT_NEW_CONTENT`, `ALTERNATIVE_CFG`,
  `ALTERNATIVE_CFG_2`, `ALTERNATIVE`, `ALTERNATIVE_2`) and the two predicate
  helpers `use_alternative_likely` / `use_alternative_unlikely`;
* `drivers/phy/spacemit/phy-k1-combphy.c`: `spacemit_combphy_set_mode`,
  `spacemit_combphy_init_usb` and `spacemit_combphy_init`.

The assembler is modelled by explicit state passing: every directive of a
macro body is one function application on the state of the section it writes
to.  Expression values are integers; a data directive stores its value reduced
modulo the width of the datum, little endian (RISC-V).
-/

set_option autoImplicit false
set_option linter.unusedVariables false

namespace RiscvAlternative

/-! ## Data directives -/

/-- The value a `w`-byte data directive stores for the expression value `v`:
`v` reduced modulo `2 ^ (8 * w)` (two's complement for negative values). -/
def trunc (w : Nat) (v : Int) : Nat :=
  (v % (2 ^ (8 * w) : Int)).toNat

/-- The `w` little-endian bytes of the unsigned value `u`. -/
def le_bytes : Nat → Nat → List Nat
  | 0, _ => []
  | w + 1, u => (u % 256) :: le_bytes w (u / 256)

/-- Reads a little-endian unsigned value back from its bytes. -/
def rd_le : List Nat → Nat
  | [] => 0
  | b :: bs => b + 256 * rd_le bs

/-- Reads a 32-bit two's complement value from an unsigned 32-bit one. -/
def s32 (u : Nat) : Int :=
  if u < 2 ^ 31 then (u : Int) else (u : Int) - 2 ^ 32

/-- An expression value fits a signed 32-bit datum. -/
def fits_s32 (v : Int) : Prop :=
  -(2 ^ 31 : Int) ≤ v ∧ v < (2 ^ 31 : Int)

instance (v : Int) : Decidable (fits_s32 v) := by
  unfold fits_s32; infer_instance

/-- One output (sub)section: the address its first byte is placed at and the
bytes assembled into it so far. -/
structure Sec where
  base : Int
  data : List Nat

/-- The location counter `.` of a section. -/
def Sec.dot (s : Sec) : Int :=
  s.base + (s.data.length : Int)

/-- Appends already encoded bytes. -/
def Sec.emit (bytes : List Nat) (s : Sec) : Sec :=
  { s with data := s.data ++ bytes }

/-- Directive `.4byte e`; the expression `e` may mention `.`, whose value is the
location counter at this directive. -/
def Sec.byte4 (e : Int → Int) (s : Sec) : Sec :=
  s.emit (le_bytes 4 (trunc 4 (e s.dot)))

/-- Directive `.2byte e`. -/
def Sec.byte2 (e : Int → Int) (s : Sec) : Sec :=
  s.emit (le_bytes 2 (trunc 2 (e s.dot)))

/-- Directive `.org e`: advances the location counter to the value of `e`,
filling the skipped bytes with zero; a target behind the location counter is an
assembly error. -/
def Sec.org (e : Int → Int) (s : Sec) : Option Sec :=
  if e s.dot < s.dot then none
  else some (s.emit (List.replicate (e s.dot - s.dot).toNat 0))

/-! ## `ALT_ENTRY` -/

/-- The assembly form of `ALT_ENTRY` (lines 9-15). -/
def ALT_ENTRY_asm (oldptr newptr vendor_id patch_id new_len : Int) (s : Sec) : Sec :=
  s |>.byte4 (fun dot => oldptr - dot)     -- .4byte \oldptr - .
    |>.byte4 (fun dot => newptr - dot)     -- .4byte \newptr - .
    |>.byte2 (fun _ => vendor_id)          -- .2byte \vendor_id
    |>.byte2 (fun _ => new_len)            -- .2byte \new_len
    |>.byte4 (fun _ => patch_id)           -- .4byte \patch_id

/-- The C string form of `ALT_ENTRY` (lines 61-66). -/
def ALT_ENTRY_c (oldptr newptr vendor_id patch_id newlen : Int) (s : Sec) : Sec :=
  s |>.byte4 (fun dot => (oldptr) - dot)   -- ".4byte ((" oldptr ") - .) \n"
    |>.byte4 (fun dot => (newptr) - dot)   -- ".4byte ((" newptr ") - .) \n"
    |>.byte2 (fun _ => vendor_id)          -- ".2byte " vendor_id "\n"
    |>.byte2 (fun _ => newlen)             -- ".2byte " newlen "\n"
    |>.byte4 (fun _ => patch_id)           -- ".4byte " patch_id "\n"

/-- Which of the two forms of the header is in use: the assembly one
(`__ASSEMBLY__`) or the C string one. -/
inductive Form where
  | asm
  | cstr
  deriving DecidableEq, Repr

/-- Expansion of `ALT_ENTRY` in the given form. -/
def ALT_ENTRY (f : Form) (oldptr newptr vendor_id patch_id new_len : Int) (s : Sec) : Sec :=
  match f with
  | .asm => ALT_ENTRY_asm oldptr newptr vendor_id patch_id new_len s
  | .cstr => ALT_ENTRY_c oldptr newptr vendor_id patch_id new_len s

/-- The bytes a section gained between the states `s` and `t`. -/
def Sec.added (s t : Sec) : List Nat :=
  t.data.drop s.data.length

/-- Modelled from the spec: the record type the table is read with is declared
outside the source files; its fields are those of the table binary layout,
`old_offset` (4 bytes, signed), `new_offset` (4 bytes, signed), `vendor_id`
(2 bytes, unsigned), `new_length` (2 bytes, unsigned), `patch_id` (4 bytes,
unsigned). -/
structure AltEntry where
  old_offset : Int
  new_offset : Int
  vendor_id : Nat
  new_length : Nat
  patch_id : Nat
  deriving DecidableEq, Repr

/-- Modelled from the spec: reads the five fields of one 16-byte record in the
order and with the widths of the table binary layout. -/
def decodeEntry (bs : List Nat) : AltEntry :=
  { old_offset := s32 (rd_le (bs.take 4))
    new_offset := s32 (rd_le ((bs.drop 4).take 4))
    vendor_id := rd_le ((bs.drop 8).take 2)
    new_length := rd_le ((bs.drop 10).take 2)
    patch_id := rd_le ((bs.drop 12).take 4) }

/-! ## Assembler state of a site -/

/-- The `.option` settings that decide how a code block is encoded. -/
structure Opts where
  rvc : Bool
  relax : Bool
  deriving DecidableEq, Repr

/-- A block of assembly source (`old_c`, `new_c`), taken as the bytes it
assembles to under given `.option` settings. -/
abbrev Content := Opts → List Nat

/-- Assembler state around one site: subsection 0 and subsection 1 of the
section the site is written in, the `.alternative` section, the `.option`
settings with their stack, and the latest definition of each local label. -/
structure Asm where
  main : Sec
  sub1 : Sec
  alt : Sec
  opts : Opts
  optstack : List Opts
  l886 : Int
  l887 : Int
  l888 : Int
  l889 : Int

/-- Directive `.option push`. -/
def Asm.option_push (s : Asm) : Asm :=
  { s with optstack := s.opts :: s.optstack }

/-- Directive `.option norvc`. -/
def Asm.option_norvc (s : Asm) : Asm :=
  { s with opts := { s.opts with rvc := false } }

/-- Directive `.option norelax`. -/
def Asm.option_norelax (s : Asm) : Asm :=
  { s with opts := { s.opts with relax := false } }

/-- Directive `.option pop`. -/
def Asm.option_pop (s : Asm) : Asm :=
  match s.optstack with
  | [] => s
  | o :: rest => { s with opts := o, optstack := rest }

/-- A code block assembled into subsection 0 under the current options. -/
def Asm.in_main (c : Content) (s : Asm) : Asm :=
  { s with main := s.main.emit (c s.opts) }

/-- A code block assembled into subsection 1 under the current options. -/
def Asm.in_sub1 (c : Content) (s : Asm) : Asm :=
  { s with sub1 := s.sub1.emit (c s.opts) }

/-- A `.org` directive issued in subsection 1; its expression reads the
location counter and the local labels from the state. -/
def Asm.org_sub1 (e : Asm → Int) (s : Asm) : Option Asm :=
  (s.sub1.org (fun _ => e s)).map (fun sec => { s with sub1 := sec })

/-- The two `.org` directives of the assembly form of `ALT_NEW_CONTENT`
(lines 30-31). -/
def org_pair_asm (s : Asm) : Option Asm :=
  -- .org . - (889b - 888b) + (887b - 886b)
  (s.org_sub1 (fun t => t.sub1.dot - (t.l889 - t.l888) + (t.l887 - t.l886))).bind
  -- .org . - (887b - 886b) + (889b - 888b)
    (Asm.org_sub1 (fun t => t.sub1.dot - (t.l887 - t.l886) + (t.l889 - t.l888)))

/-- The two `.org` directives of the C string form of `ALT_NEW_CONTENT`
(lines 81-82). -/
def org_pair_c (s : Asm) : Option Asm :=
  -- ".org . - (887b - 886b) + (889b - 888b)\n"
  (s.org_sub1 (fun t => t.sub1.dot - (t.l887 - t.l886) + (t.l889 - t.l888))).bind
  -- ".org . - (889b - 888b) + (887b - 886b)\n"
    (Asm.org_sub1 (fun t => t.sub1.dot - (t.l889 - t.l888) + (t.l887 - t.l886)))

/-- The lines of `ALT_NEW_CONTENT` between `.subsection 1` and the `.org`
pair, together with the record: label 888, the replacement block under
`norvc`/`norelax`, label 889.  The record is written once both labels are
defined, because its operands `888f` and `889f` are forward references to
them; `886b` is the latest definition of 886. -/
def new_content_block (entry : Int → Int → Int → Int → Int → Sec → Sec)
    (vendor_id patch_id : Int) (new_c : Content) (s : Asm) : Asm :=
  let s := { s with l888 := s.sub1.dot }     -- 888 :
  let s := s.option_push                     -- .option push
  let s := s.option_norvc                    -- .option norvc
  let s := s.option_norelax                  -- .option norelax
  let s := s.in_sub1 new_c                   -- \new_c
  let s := s.option_pop                      -- .option pop
  let s := { s with l889 := s.sub1.dot }     -- 889 :
  -- .pushsection .alternative, "a"
  -- ALT_ENTRY 886b, 888f, \vendor_id, \patch_id, 889f - 888f
  -- .popsection
  { s with alt := entry s.l886 s.l888 vendor_id patch_id (s.l889 - s.l888) s.alt }

/-- The assembly form of `ALT_NEW_CONTENT` (lines 17-34); `.if \enable` holds
for every non-zero value. -/
def ALT_NEW_CONTENT_asm (vendor_id patch_id enable : Int) (new_c : Content)
    (s : Asm) : Option Asm :=
  if enable ≠ 0 then
    org_pair_asm (new_content_block ALT_ENTRY_asm vendor_id patch_id new_c s)
  else some s

/-- The C string form of `ALT_NEW_CONTENT` (lines 68-84); the condition is
`.if enable == 1`. -/
def ALT_NEW_CONTENT_c (vendor_id patch_id enable : Int) (new_c : Content)
    (s : Asm) : Option Asm :=
  if enable = 1 then
    org_pair_c (new_content_block ALT_ENTRY_c vendor_id patch_id new_c s)
  else some s

/-- Expansion of `ALT_NEW_CONTENT` in the given form. -/
def ALT_NEW_CONTENT (f : Form) (vendor_id patch_id enable : Int) (new_c : Content)
    (s : Asm) : Option Asm :=
  match f with
  | .asm => ALT_NEW_CONTENT_asm vendor_id patch_id enable new_c s
  | .cstr => ALT_NEW_CONTENT_c vendor_id patch_id enable new_c s

/-- The condition under which the `.if` of `ALT_NEW_CONTENT` keeps its body:
`.if \enable` in the assembly form, `.if enable == 1` in the C string form. -/
def Form.enabled (f : Form) (enable : Int) : Prop :=
  match f with
  | .asm => enable ≠ 0
  | .cstr => enable = 1

instance (f : Form) (enable : Int) : Decidable (f.enabled enable) := by
  cases f <;> unfold Form.enabled <;> infer_instance

/-- The lines of `ALTERNATIVE_CFG` before `ALT_NEW_CONTENT` (lines 37-43 and
87-93): label 886, the default block under `norvc`/`norelax`, label 887. -/
def old_content_block (old_c : Content) (s : Asm) : Asm :=
  let s := { s with l886 := s.main.dot }     -- 886 :
  let s := s.option_push                     -- .option push
  let s := s.option_norvc                    -- .option norvc
  let s := s.option_norelax                  -- .option norelax
  let s := s.in_main old_c                   -- \old_c
  let s := s.option_pop                      -- .option pop
  { s with l887 := s.main.dot }              -- 887 :

/-- Expansion of `ALTERNATIVE_CFG` (assembly, lines 36-45) and `__ALTERNATIVE_CFG` (C string,
lines 86-94): the two bodies are the same line sequence. -/
def ALTERNATIVE_CFG (f : Form) (old_c new_c : Content) (vendor_id patch_id enable : Int)
    (s : Asm) : Option Asm :=
  -- 886 : ... 887 :
  -- ALT_NEW_CONTENT \vendor_id, \patch_id, \enable, "\new_c"
  ALT_NEW_CONTENT f vendor_id patch_id enable new_c (old_content_block old_c s)

/-- Expansion of `ALTERNATIVE_CFG_2` (assembly, lines 47-51) and `__ALTERNATIVE_CFG_2`
(C string, lines 96-99). -/
def ALTERNATIVE_CFG_2 (f : Form) (old_c new_c_1 : Content)
    (vendor_id_1 patch_id_1 enable_1 : Int) (new_c_2 : Content)
    (vendor_id_2 patch_id_2 enable_2 : Int) (s : Asm) : Option Asm :=
  (ALTERNATIVE_CFG f old_c new_c_1 vendor_id_1 patch_id_1 enable_1 s).bind
    (ALT_NEW_CONTENT f vendor_id_2 patch_id_2 enable_2 new_c_2)

/-- Modelled from the spec: `IS_ENABLED` is defined outside the source files;
it is 1 for a Kconfig option that is on and 0 for one that is off. -/
def IS_ENABLED (CONFIG_k : Bool) : Int :=
  if CONFIG_k then 1 else 0

/-- Expansion of `_ALTERNATIVE_CFG`: lines 103-104 with `CONFIG_RISCV_ALTERNATIVE`, and
without it lines 114-128, where the expansion is `old_c` alone. -/
def _ALTERNATIVE_CFG (CONFIG_RISCV_ALTERNATIVE : Bool) (f : Form) (old_c new_c : Content)
    (vendor_id patch_id : Int) (CONFIG_k : Bool) (s : Asm) : Option Asm :=
  if CONFIG_RISCV_ALTERNATIVE then
    ALTERNATIVE_CFG f old_c new_c vendor_id patch_id (IS_ENABLED CONFIG_k) s
  else
    some (s.in_main old_c)

/-- Expansion of `_ALTERNATIVE_CFG_2`: lines 106-109 with `CONFIG_RISCV_ALTERNATIVE`, and
without it lines 114-129. -/
def _ALTERNATIVE_CFG_2 (CONFIG_RISCV_ALTERNATIVE : Bool) (f : Form) (old_c new_c_1 : Content)
    (vendor_id_1 patch_id_1 : Int) (CONFIG_k_1 : Bool) (new_c_2 : Content)
    (vendor_id_2 patch_id_2 : Int) (CONFIG_k_2 : Bool) (s : Asm) : Option Asm :=
  if CONFIG_RISCV_ALTERNATIVE then
    ALTERNATIVE_CFG_2 f old_c new_c_1 vendor_id_1 patch_id_1 (IS_ENABLED CONFIG_k_1)
      new_c_2 vendor_id_2 patch_id_2 (IS_ENABLED CONFIG_k_2) s
  else
    some (s.in_main old_c)

/-- Expansion of `ALTERNATIVE` (lines 146-147). -/
def ALTERNATIVE (CONFIG_RISCV_ALTERNATIVE : Bool) (f : Form) (old_content new_content : Content)
    (vendor_id patch_id : Int) (CONFIG_k : Bool) (s : Asm) : Option Asm :=
  _ALTERNATIVE_CFG CONFIG_RISCV_ALTERNATIVE f old_content new_content vendor_id patch_id
    CONFIG_k s

/-- Expansion of `ALTERNATIVE_2` (lines 156-159). -/
def ALTERNATIVE_2 (CONFIG_RISCV_ALTERNATIVE : Bool) (f : Form)
    (old_content new_content_1 : Content) (vendor_id_1 patch_id_1 : Int) (CONFIG_k_1 : Bool)
    (new_content_2 : Content) (vendor_id_2 patch_id_2 : Int) (CONFIG_k_2 : Bool)
    (s : Asm) : Option Asm :=
  _ALTERNATIVE_CFG_2 CONFIG_RISCV_ALTERNATIVE f old_content new_content_1 vendor_id_1
    patch_id_1 CONFIG_k_1 new_content_2 vendor_id_2 patch_id_2 CONFIG_k_2 s

/-- The options every block of a site is assembled under: `norvc`, `norelax`. -/
def site_opts : Opts :=
  { rvc := false, relax := false }

/-! ### Sample inputs -/

/-- A sample block, one `nop`: 4 bytes, or 2 bytes where compressed
instructions are allowed. -/
def nop_c : Content :=
  fun o => if o.rvc then [0x01, 0x00] else [0x13, 0x00, 0x00, 0x00]

/-- A sample block, two `nop`s. -/
def nop2_c : Content :=
  fun o => nop_c o ++ nop_c o

/-- A sample state: nothing assembled yet, subsection 0 placed at 0x1000,
subsection 1 at 0x2000, `.alternative` at 0x8000, compressed instructions
allowed. -/
def sample_asm : Asm :=
  { main := ⟨0x1000, []⟩
    sub1 := ⟨0x2000, []⟩
    alt := ⟨0x8000, []⟩
    opts := { rvc := true, relax := true }
    optstack := []
    l886 := 0
    l887 := 0
    l888 := 0
    l889 := 0 }

/-! ## `use_alternative_likely` / `use_alternative_unlikely` -/

/-- The two instructions the predicate helpers place in their slot: `nop`, and
`j` to the one label of the `asm goto` statement. -/
inductive Insn where
  | nop
  | j
  deriving DecidableEq, Repr

/-- The old and the new content of a single-instruction site. -/
structure Slot where
  old_content : Insn
  new_content : Insn
  deriving DecidableEq, Repr

/-- The instruction a slot holds: its old content before patching, its new
content once the alternative has been applied ("old_content: The old content
which is probably replaced with new content", lines 139-140). -/
def Slot.holds (site : Slot) (applied : Bool) : Insn :=
  if applied then site.new_content else site.old_content

/-- The site of `use_alternative_likely` (line 187):
`ALTERNATIVE("j %l[no_alt]", "nop", vendor_id, patch_id, 1)`. -/
def likely_site : Slot :=
  { old_content := .j, new_content := .nop }

/-- The site of `use_alternative_unlikely` (line 205):
`ALTERNATIVE("nop", "j %l[alt]", vendor_id, patch_id, 1)`. -/
def unlikely_site : Slot :=
  { old_content := .nop, new_content := .j }

/-- Function `use_alternative_likely` (lines 182-198 with `CONFIG_RISCV_ALTERNATIVE`,
lines 220-223 without), run with the instruction `slot` in its instruction
slot. -/
def use_alternative_likely (CONFIG_RISCV_ALTERNATIVE : Bool) (vendor_id patch_id : Nat)
    (slot : Insn) : Bool :=
  if CONFIG_RISCV_ALTERNATIVE then
    match slot with
    | .nop => true      -- falls through to `return true;`
    | .j => false       -- no_alt: `return false;`
  else
    false

/-- Function `use_alternative_unlikely` (lines 200-216 with `CONFIG_RISCV_ALTERNATIVE`,
lines 225-228 without), run with the instruction `slot` in its instruction
slot. -/
def use_alternative_unlikely (CONFIG_RISCV_ALTERNATIVE : Bool) (vendor_id patch_id : Nat)
    (slot : Insn) : Bool :=
  if CONFIG_RISCV_ALTERNATIVE then
    match slot with
    | .nop => false     -- falls through to `return false;`
    | .j => true        -- alt: `return true;`
  else
    false

end RiscvAlternative

namespace CombPhy

/-! ## `drivers/phy/spacemit/phy-k1-combphy.c` -/

def COMBPHY_USB_REG1 : Nat := 0x68
def COMBPHY_USB_REG1_VAL : Nat := 0x00
def COMBPHY_USB_REG2 : Nat := 0x48
def COMBPHY_USB_REG2_VAL : Nat := 0x603a2276
def COMBPHY_USB_REG3 : Nat := 0x08
def COMBPHY_USB_REG3_VAL : Nat := 0x97c
def COMBPHY_USB_REG4 : Nat := 0x18
def COMBPHY_USB_REG4_VAL : Nat := 0x00
def COMBPHY_USB_TERM_SHORT_MASK : Nat := 0x3000
def COMBPHY_USB_TERM_SHORT_VAL : Nat := 0x3000
def COMBPHY_USB_PLL_REG : Nat := 0x08
def COMBPHY_USB_PLL_MASK : Nat := 0x01
def COMBPHY_USB_PLL_VAL : Nat := 0x01
def COMBPHY_USB_LFPS_REG : Nat := 0x58
def COMBPHY_USB_LFPS_MASK : Nat := 0x700
def COMBPHY_USB_LFPS_THRES_DEFAULT : Nat := 0x03
/-- The macro `BIT(n)`. -/
def BIT (n : Nat) : Nat := 1 <<< n
def COMBPHY_MODE_SEL_MASK : Nat := BIT 3
def COMBPHY_MODE_USB : Nat := BIT 3
def COMBPHY_WAIT_TIMEOUT : Nat := 1000

/-- Constants the driver takes from headers outside the source files, kept as
parameters: the PHY type `PHY_TYPE_USB3` and the error number `EINVAL`. -/
structure Consts where
  PHY_TYPE_USB3 : Nat
  EINVAL : Int

/-- The fields of `struct spacemit_combphy_priv` the init path reads. -/
structure spacemit_combphy_priv where
  rx_always_on : Bool
  lfps_threshold : Nat
  type : Nat

/-- One call the driver makes on the hardware, as recorded in the order made. -/
inductive Op where
  | sel_update_bits (reg mask val : Nat)
  | ctrl_write (reg val : Nat)
  | ctrl_update_bits (reg mask val : Nat)
  | ctrl_read_poll (reg : Nat)
  | reset_deassert
  | reset_assert
  deriving DecidableEq, Repr

/-- Explicit hardware state: the two register maps (`regmap_sel`, `regmap_ctrl`),
the PHY reset line (`phy_rst`), and the calls made so far, oldest first. -/
structure Hw where
  regmap_sel : Nat → Nat
  regmap_ctrl : Nat → Nat
  rst_asserted : Bool
  calls : List Op

/-- What the calls outside the driver return: `reset_control_deassert` and the
PLL poll `regmap_read_poll_timeout` (0 on success, an error number otherwise). -/
structure Outcome where
  deassert_ret : Int
  poll_ret : Int

/-- The read-modify-write of `regmap_update_bits` on one 32-bit register. -/
def update_bits (old mask val : Nat) : Nat :=
  (old &&& (0xffffffff ^^^ mask)) ||| (val &&& mask)

/-- Sets one register of a map. -/
def set_reg (m : Nat → Nat) (reg val : Nat) : Nat → Nat :=
  fun r => if r = reg then val else m r

/-- The call `regmap_update_bits(priv->regmap_sel, reg, mask, val)`. -/
def regmap_update_bits_sel (reg mask val : Nat) (hw : Hw) : Hw :=
  { hw with
    regmap_sel := set_reg hw.regmap_sel reg (update_bits (hw.regmap_sel reg) mask val)
    calls := hw.calls ++ [Op.sel_update_bits reg mask val] }

/-- The call `regmap_write(priv->regmap_ctrl, reg, val)`. -/
def regmap_write_ctrl (reg val : Nat) (hw : Hw) : Hw :=
  { hw with
    regmap_ctrl := set_reg hw.regmap_ctrl reg val
    calls := hw.calls ++ [Op.ctrl_write reg val] }

/-- The call `regmap_update_bits(priv->regmap_ctrl, reg, mask, val)`. -/
def regmap_update_bits_ctrl (reg mask val : Nat) (hw : Hw) : Hw :=
  { hw with
    regmap_ctrl := set_reg hw.regmap_ctrl reg (update_bits (hw.regmap_ctrl reg) mask val)
    calls := hw.calls ++ [Op.ctrl_update_bits reg mask val] }

/-- The call `regmap_read_poll_timeout(priv->regmap_ctrl, reg, ...)`; its
result is the outcome given. -/
def regmap_read_poll_timeout_ctrl (out : Outcome) (reg : Nat) (hw : Hw) : Int × Hw :=
  (out.poll_ret, { hw with calls := hw.calls ++ [Op.ctrl_read_poll reg] })

/-- The call `reset_control_deassert(priv->phy_rst)`; the line is released when
the call succeeds. -/
def reset_control_deassert (out : Outcome) (hw : Hw) : Int × Hw :=
  (out.deassert_ret,
    { hw with
      rst_asserted := if out.deassert_ret = 0 then false else hw.rst_asserted
      calls := hw.calls ++ [Op.reset_deassert] })

/-- The call `reset_control_assert(priv->phy_rst)`. -/
def reset_control_assert (hw : Hw) : Hw :=
  { hw with rst_asserted := true, calls := hw.calls ++ [Op.reset_assert] }

/-- Function `spacemit_combphy_set_mode` (lines 71-87). -/
def spacemit_combphy_set_mode (k : Consts) (priv : spacemit_combphy_priv) (hw : Hw) :
    Int × Hw :=
  let ret : Int := 0
  if priv.type = k.PHY_TYPE_USB3 then
    -- case PHY_TYPE_USB3:
    (ret, regmap_update_bits_sel 0 COMBPHY_MODE_SEL_MASK COMBPHY_MODE_USB hw)
  else
    -- default: dev_err(...); ret = -EINVAL;
    (-k.EINVAL, hw)

/-- Function `spacemit_combphy_init_usb` (lines 89-119). -/
def spacemit_combphy_init_usb (out : Outcome) (priv : spacemit_combphy_priv) (hw : Hw) :
    Int × Hw :=
  let hw := regmap_write_ctrl COMBPHY_USB_REG1 COMBPHY_USB_REG1_VAL hw
  let hw := regmap_write_ctrl COMBPHY_USB_REG2 COMBPHY_USB_REG2_VAL hw
  let hw := regmap_write_ctrl COMBPHY_USB_REG3 COMBPHY_USB_REG3_VAL hw
  let hw := regmap_write_ctrl COMBPHY_USB_REG4 COMBPHY_USB_REG4_VAL hw
  let (ret, hw) := regmap_read_poll_timeout_ctrl out COMBPHY_USB_PLL_REG hw
  if ret ≠ 0 then
    (ret, hw)
  else
    let hw := regmap_update_bits_ctrl COMBPHY_USB_LFPS_REG COMBPHY_USB_LFPS_MASK
      (priv.lfps_threshold <<< 8) hw
    let hw :=
      if priv.rx_always_on then
        regmap_update_bits_ctrl COMBPHY_USB_REG4 COMBPHY_USB_TERM_SHORT_MASK
          COMBPHY_USB_TERM_SHORT_VAL hw
      else hw
    (ret, hw)

/-- Function `spacemit_combphy_init` (lines 121-158). -/
def spacemit_combphy_init (k : Consts) (out : Outcome) (priv : spacemit_combphy_priv)
    (hw : Hw) : Int × Hw :=
  let (ret, hw) := spacemit_combphy_set_mode k priv hw
  if ret ≠ 0 then
    (ret, hw)                                   -- goto out
  else
    let (ret, hw) := reset_control_deassert out hw
    if ret ≠ 0 then
      (ret, reset_control_assert hw)            -- goto err_rst
    else
      let (ret, hw) :=
        if priv.type = k.PHY_TYPE_USB3 then
          spacemit_combphy_init_usb out priv hw
        else
          (-k.EINVAL, hw)
      if ret ≠ 0 then
        (ret, reset_control_assert hw)          -- goto err_rst
      else
        (0, hw)

/-- Whether a call acts on the PHY reset line. -/
def Op.is_reset : Op → Bool
  | .reset_deassert => true
  | .reset_assert => true
  | _ => false

/-- The last call on the reset line among `calls`, if there is one. -/
def last_reset_op (calls : List Op) : Option Op :=
  (calls.filter Op.is_reset).getLast?

/-- The calls made between the states `hw` and `hw'`. -/
def Hw.calls_since (hw hw' : Hw) : List Op :=
  hw'.calls.drop hw.calls.length

/-- A sample state: all registers zero, the PHY in reset, no call made yet. -/
def sample_hw : Hw :=
  { regmap_sel := fun _ => 0
    regmap_ctrl := fun _ => 0
    rst_asserted := true
    calls := [] }

end CombPhy

/-! # Theorems -/

namespace RiscvAlternative

/-! ## Encoding of a record -/

theorem trunc4_lt (v : Int) : trunc 4 v < 2 ^ 32 := by
  unfold trunc; omega

theorem trunc2_lt (v : Int) : trunc 2 v < 2 ^ 16 := by
  unfold trunc; omega

theorem rd_le_le_bytes4 (u : Nat) (h : u < 2 ^ 32) : rd_le (le_bytes 4 u) = u := by
  simp only [le_bytes, rd_le]; omega

theorem rd_le_le_bytes2 (u : Nat) (h : u < 2 ^ 16) : rd_le (le_bytes 2 u) = u := by
  simp only [le_bytes, rd_le]; omega

theorem length_le_bytes (w u : Nat) : (le_bytes w u).length = w := by
  induction w generalizing u with
  | zero => rfl
  | succ n ih => simp [le_bytes, ih]

theorem trunc_trunc (w : Nat) (v : Int) : trunc w ((trunc w v : Nat) : Int) = trunc w v := by
  unfold trunc
  have hpos : (0 : Int) < 2 ^ (8 * w) := by positivity
  rw [Int.toNat_of_nonneg (Int.emod_nonneg _ (ne_of_gt hpos)),
    Int.emod_emod_of_dvd _ (dvd_refl _)]

theorem s32_trunc4 (v : Int) (h : fits_s32 v) : s32 (trunc 4 v) = v := by
  unfold fits_s32 at h
  unfold s32 trunc
  split <;> omega

theorem trunc4_of_nonneg_lt (v : Int) (h0 : 0 ≤ v) (h1 : v < 2 ^ 32) :
    (trunc 4 v : Int) = v := by
  unfold trunc; omega

theorem trunc2_of_nonneg_lt (v : Int) (h0 : 0 ≤ v) (h1 : v < 2 ^ 16) :
    (trunc 2 v : Int) = v := by
  unfold trunc; omega

theorem ALT_ENTRY_base (f : Form) (O N v p l : Int) (s : Sec) :
    (ALT_ENTRY f O N v p l s).base = s.base := by
  cases f <;> rfl

theorem ALT_ENTRY_data (f : Form) (O N v p l : Int) (s : Sec) :
    (ALT_ENTRY f O N v p l s).data =
      s.data ++ (le_bytes 4 (trunc 4 (O - s.dot)) ++ (le_bytes 4 (trunc 4 (N - (s.dot + 4)))
        ++ (le_bytes 2 (trunc 2 v) ++ (le_bytes 2 (trunc 2 l) ++ le_bytes 4 (trunc 4 p))))) := by
  cases f <;>
  simp [ALT_ENTRY, ALT_ENTRY_asm, ALT_ENTRY_c, Sec.byte4, Sec.byte2, Sec.emit, Sec.dot,
    le_bytes, add_assoc]

theorem added_ALT_ENTRY (f : Form) (O N v p l : Int) (s : Sec) :
    s.added (ALT_ENTRY f O N v p l s) =
      le_bytes 4 (trunc 4 (O - s.dot)) ++ (le_bytes 4 (trunc 4 (N - (s.dot + 4)))
        ++ (le_bytes 2 (trunc 2 v) ++ (le_bytes 2 (trunc 2 l) ++ le_bytes 4 (trunc 4 p)))) := by
  rw [Sec.added, ALT_ENTRY_data, List.drop_left]

theorem length_added_ALT_ENTRY (f : Form) (O N v p l : Int) (s : Sec) :
    (s.added (ALT_ENTRY f O N v p l s)).length = 16 := by
  simp [added_ALT_ENTRY, length_le_bytes]

theorem ALT_ENTRY_dot (f : Form) (O N v p l : Int) (s : Sec) :
    (ALT_ENTRY f O N v p l s).dot = s.dot + 16 := by
  simp [Sec.dot, ALT_ENTRY_base, ALT_ENTRY_data, length_le_bytes]
  omega

theorem ALT_ENTRY_trunc (f : Form) (O N v p l : Int) (s : Sec) :
    ALT_ENTRY f O N (trunc 2 v) (trunc 4 p) (trunc 2 l) s = ALT_ENTRY f O N v p l s := by
  cases f <;>
  simp [ALT_ENTRY, ALT_ENTRY_asm, ALT_ENTRY_c, Sec.byte4, Sec.byte2, trunc_trunc]

theorem decode_added_ALT_ENTRY (f : Form) (O N v p l : Int) (s : Sec) :
    decodeEntry (s.added (ALT_ENTRY f O N v p l s)) =
      { old_offset := s32 (trunc 4 (O - s.dot))
        new_offset := s32 (trunc 4 (N - (s.dot + 4)))
        vendor_id := trunc 2 v
        new_length := trunc 2 l
        patch_id := trunc 4 p } := by
  rw [added_ALT_ENTRY]
  have e4 : ∀ x : Int, rd_le (le_bytes 4 (trunc 4 x)) = trunc 4 x :=
    fun x => rd_le_le_bytes4 _ (trunc4_lt x)
  have e2 : ∀ x : Int, rd_le (le_bytes 2 (trunc 2 x)) = trunc 2 x :=
    fun x => rd_le_le_bytes2 _ (trunc2_lt x)
  have h1 := e4 (O - s.dot)
  have h2 := e4 (N - (s.dot + 4))
  have h3 := e2 v
  have h4 := e2 l
  have h5 := e4 p
  simp only [le_bytes] at h1 h2 h3 h4 h5
  simp [decodeEntry, le_bytes, h1, h2, h3, h4, h5]

/-! ## The `.org` pair and `ALT_NEW_CONTENT` -/

theorem org_pair_asm_eq (s : Asm) :
    org_pair_asm s = if s.l889 - s.l888 = s.l887 - s.l886 then some s else none := by
  obtain ⟨main, ⟨b1, d1⟩, alt, opts, st, l6, l7, l8, l9⟩ := s
  simp only [org_pair_asm, Asm.org_sub1, Sec.org, Sec.dot, Sec.emit]
  by_cases h1 : l9 - l8 = l7 - l6
  · simp [h1]
  · by_cases h2 : l9 - l8 < l7 - l6
    · have e1 : ¬ (b1 + (d1.length : Int) - (l9 - l8) + (l7 - l6) < b1 + (d1.length : Int)) := by
        omega
      simp only [e1, if_false, Option.map_some', Option.some_bind, if_neg h1,
        List.length_append, List.length_replicate]
      rw [if_pos]
      · rfl
      · push_cast
        omega
    · have e1 : b1 + (d1.length : Int) - (l9 - l8) + (l7 - l6) < b1 + (d1.length : Int) := by
        omega
      simp [e1, h1]

theorem org_pair_c_eq (s : Asm) :
    org_pair_c s = if s.l889 - s.l888 = s.l887 - s.l886 then some s else none := by
  obtain ⟨main, ⟨b1, d1⟩, alt, opts, st, l6, l7, l8, l9⟩ := s
  simp only [org_pair_c, Asm.org_sub1, Sec.org, Sec.dot, Sec.emit]
  by_cases h1 : l9 - l8 = l7 - l6
  · simp [h1]
  · by_cases h2 : l7 - l6 < l9 - l8
    · have e1 : ¬ (b1 + (d1.length : Int) - (l7 - l6) + (l9 - l8) < b1 + (d1.length : Int)) := by
        omega
      simp only [e1, if_false, Option.map_some', Option.some_bind, if_neg h1,
        List.length_append, List.length_replicate]
      rw [if_pos]
      · rfl
      · push_cast
        omega
    · have e1 : b1 + (d1.length : Int) - (l7 - l6) + (l9 - l8) < b1 + (d1.length : Int) := by
        omega
      simp [e1, h1]

theorem new_content_block_eq (entry : Int → Int → Int → Int → Int → Sec → Sec)
    (v p : Int) (c : Content) (s : Asm) :
    new_content_block entry v p c s =
      { s with
        sub1 := s.sub1.emit (c site_opts)
        alt := entry s.l886 s.sub1.dot v p ((c site_opts).length : Int) s.alt
        l888 := s.sub1.dot
        l889 := s.sub1.dot + ((c site_opts).length : Int) } := by
  simp [new_content_block, Asm.option_push, Asm.option_norvc, Asm.option_norelax,
    Asm.in_sub1, Asm.option_pop, site_opts, Sec.dot, Sec.emit]
  omega

theorem old_content_block_eq (c : Content) (s : Asm) :
    old_content_block c s =
      { s with
        main := s.main.emit (c site_opts)
        l886 := s.main.dot
        l887 := s.main.dot + ((c site_opts).length : Int) } := by
  simp [old_content_block, Asm.option_push, Asm.option_norvc, Asm.option_norelax,
    Asm.in_main, Asm.option_pop, site_opts, Sec.dot, Sec.emit]
  omega


theorem ALT_NEW_CONTENT_enabled (f : Form) (v p en : Int) (c : Content) (s : Asm)
    (h : f.enabled en) :
    ALT_NEW_CONTENT f v p en c s =
      if ((c site_opts).length : Int) = s.l887 - s.l886 then
        some (new_content_block (ALT_ENTRY f) v p c s)
      else none := by
  cases f
  · have h0 : en ≠ 0 := h
    simp only [ALT_NEW_CONTENT, ALT_NEW_CONTENT_asm, if_pos h0, org_pair_asm_eq]
    have e : (new_content_block ALT_ENTRY_asm v p c s) =
        new_content_block (ALT_ENTRY Form.asm) v p c s := rfl
    rw [e, new_content_block_eq]
    simp
  · have h1 : en = 1 := h
    simp only [ALT_NEW_CONTENT, ALT_NEW_CONTENT_c, if_pos h1, org_pair_c_eq]
    have e : (new_content_block ALT_ENTRY_c v p c s) =
        new_content_block (ALT_ENTRY Form.cstr) v p c s := rfl
    rw [e, new_content_block_eq]
    simp

theorem ALT_NEW_CONTENT_disabled (f : Form) (v p en : Int) (c : Content) (s : Asm)
    (h : ¬ f.enabled en) :
    ALT_NEW_CONTENT f v p en c s = some s := by
  cases f
  · have h0 : ¬ en ≠ 0 := h
    simp only [ALT_NEW_CONTENT, ALT_NEW_CONTENT_asm, if_neg h0]
  · have h1 : ¬ en = 1 := h
    simp only [ALT_NEW_CONTENT, ALT_NEW_CONTENT_c, if_neg h1]

/-! ## C1: the offsets of a record -/

/-- C1, as stated, fails: for the record emitted at address 4096 with the default
block at 256 and the replacement block at 512 (both displacements fit a signed
32-bit integer), the stored `old_offset` is `256 - 4096`, but the stored
`new_offset` is `512 - 4100`, not `512 - 4096`, and decoding it relative to the
address of the record gives 508, not 512. -/
theorem ALT_ENTRY_new_offset_not_record_relative :
    fits_s32 (256 - 4096) ∧ fits_s32 (512 - 4096) ∧
    (decodeEntry (Sec.added ⟨4096, []⟩ (ALT_ENTRY Form.asm 256 512 1 5 4 ⟨4096, []⟩))).old_offset
      = 256 - 4096 ∧
    (decodeEntry (Sec.added ⟨4096, []⟩ (ALT_ENTRY Form.asm 256 512 1 5 4 ⟨4096, []⟩))).new_offset
      = 512 - 4100 ∧
    (decodeEntry (Sec.added ⟨4096, []⟩ (ALT_ENTRY Form.asm 256 512 1 5 4 ⟨4096, []⟩))).new_offset
      ≠ 512 - 4096 ∧
    4096 + (decodeEntry (Sec.added ⟨4096, []⟩
      (ALT_ENTRY Form.asm 256 512 1 5 4 ⟨4096, []⟩))).new_offset ≠ 512 := by
  decide

/-- C1, amended: in a record emitted by `ALT_ENTRY` (either form) at address
`A = s.dot`, each offset field is the displacement from the address of that
field: `old_offset = O - A` (the field is the first of the record) and
`new_offset = N - (A + 4)`, when these two displacements fit a signed 32-bit
integer.  Decoding each field relative to its own address recovers `O` and `N`,
and emitting the decoded record again at `A` gives the identical record. -/
theorem ALT_ENTRY_offsets_field_relative (f : Form) (O N v p l : Int) (s : Sec)
    (hO : fits_s32 (O - s.dot)) (hN : fits_s32 (N - (s.dot + 4))) :
    (decodeEntry (s.added (ALT_ENTRY f O N v p l s))).old_offset = O - s.dot ∧
    (decodeEntry (s.added (ALT_ENTRY f O N v p l s))).new_offset = N - (s.dot + 4) ∧
    s.dot + (decodeEntry (s.added (ALT_ENTRY f O N v p l s))).old_offset = O ∧
    (s.dot + 4) + (decodeEntry (s.added (ALT_ENTRY f O N v p l s))).new_offset = N ∧
    ALT_ENTRY f
        (s.dot + (decodeEntry (s.added (ALT_ENTRY f O N v p l s))).old_offset)
        ((s.dot + 4) + (decodeEntry (s.added (ALT_ENTRY f O N v p l s))).new_offset)
        (decodeEntry (s.added (ALT_ENTRY f O N v p l s))).vendor_id
        (decodeEntry (s.added (ALT_ENTRY f O N v p l s))).patch_id
        (decodeEntry (s.added (ALT_ENTRY f O N v p l s))).new_length s
      = ALT_ENTRY f O N v p l s := by
  rw [decode_added_ALT_ENTRY]
  simp only [s32_trunc4 _ hO, s32_trunc4 _ hN]
  have e1 : s.dot + (O - s.dot) = O := by omega
  have e2 : s.dot + 4 + (N - (s.dot + 4)) = N := by omega
  refine ⟨trivial, trivial, e1, e2, ?_⟩
  rw [e1, e2, ALT_ENTRY_trunc]

/-- C1, amended, at a concrete record: address 4096, default block at 256,
replacement block at 512. -/
theorem ALT_ENTRY_offsets_field_relative_witness :
    fits_s32 (256 - Sec.dot ⟨4096, []⟩) ∧ fits_s32 (512 - (Sec.dot ⟨4096, []⟩ + 4)) ∧
    (decodeEntry (Sec.added ⟨4096, []⟩
      (ALT_ENTRY Form.cstr 256 512 1 5 4 ⟨4096, []⟩))).old_offset = 256 - Sec.dot ⟨4096, []⟩ ∧
    (decodeEntry (Sec.added ⟨4096, []⟩
      (ALT_ENTRY Form.cstr 256 512 1 5 4 ⟨4096, []⟩))).new_offset
        = 512 - (Sec.dot ⟨4096, []⟩ + 4) :=
  have h := ALT_ENTRY_offsets_field_relative Form.cstr 256 512 1 5 4 ⟨4096, []⟩
    (by decide) (by decide)
  ⟨by decide, by decide, h.1, h.2.1⟩

/-! ## C2: the layout of a record -/

/-- C2: `ALT_ENTRY` appends to its section, at the location counter, exactly 16
bytes: `old_offset` (4 bytes), `new_offset` (4 bytes), `vendor_id` (2 bytes),
`new_length` (2 bytes), `patch_id` (4 bytes), in this order; the assembly form
and the C string form emit the same bytes; and an enabled `ALT_NEW_CONTENT`
that assembles passes label 889 minus label 888, the assembled length of the
replacement block, as `new_len`. -/
theorem ALT_ENTRY_layout (f : Form) (O N v p l : Int) (s : Sec)
    (en : Int) (new_c : Content) (a : Asm) (hen : f.enabled en)
    (hlen : ((new_c site_opts).length : Int) = a.l887 - a.l886) :
    (ALT_ENTRY f O N v p l s).base = s.base ∧
    (ALT_ENTRY f O N v p l s).data = s.data ++ s.added (ALT_ENTRY f O N v p l s) ∧
    s.added (ALT_ENTRY f O N v p l s) =
      le_bytes 4 (trunc 4 (O - s.dot)) ++ (le_bytes 4 (trunc 4 (N - (s.dot + 4)))
        ++ (le_bytes 2 (trunc 2 v) ++ (le_bytes 2 (trunc 2 l) ++ le_bytes 4 (trunc 4 p)))) ∧
    (s.added (ALT_ENTRY f O N v p l s)).length = 16 ∧
    (le_bytes 4 (trunc 4 (O - s.dot))).length = 4 ∧
    (le_bytes 4 (trunc 4 (N - (s.dot + 4)))).length = 4 ∧
    (le_bytes 2 (trunc 2 v)).length = 2 ∧
    (le_bytes 2 (trunc 2 l)).length = 2 ∧
    (le_bytes 4 (trunc 4 p)).length = 4 ∧
    decodeEntry (s.added (ALT_ENTRY f O N v p l s)) =
      { old_offset := s32 (trunc 4 (O - s.dot))
        new_offset := s32 (trunc 4 (N - (s.dot + 4)))
        vendor_id := trunc 2 v
        new_length := trunc 2 l
        patch_id := trunc 4 p } ∧
    ALT_ENTRY_asm O N v p l s = ALT_ENTRY_c O N v p l s ∧
    ∃ a', ALT_NEW_CONTENT f v p en new_c a = some a' ∧
      a'.l889 - a'.l888 = ((new_c site_opts).length : Int) ∧
      a'.alt = ALT_ENTRY f a.l886 a'.l888 v p (a'.l889 - a'.l888) a.alt := by
  refine ⟨ALT_ENTRY_base .., ?_, added_ALT_ENTRY .., length_added_ALT_ENTRY ..,
    length_le_bytes .., length_le_bytes .., length_le_bytes .., length_le_bytes ..,
    length_le_bytes .., decode_added_ALT_ENTRY .., rfl, ?_⟩
  · rw [added_ALT_ENTRY, ALT_ENTRY_data]
  · rw [ALT_NEW_CONTENT_enabled f v p en new_c a hen, if_pos hlen, new_content_block_eq]
    refine ⟨_, rfl, ?_, ?_⟩
    · simp
    · simp

/-- C2 at a concrete record and a concrete site: default block and replacement
block of one `nop` each. -/
theorem ALT_ENTRY_layout_witness :
    Form.enabled Form.asm 1 ∧
    ((nop_c site_opts).length : Int)
      = (old_content_block nop_c sample_asm).l887 - (old_content_block nop_c sample_asm).l886 ∧
    (Sec.added ⟨4096, []⟩ (ALT_ENTRY Form.asm 256 512 1 5 4 ⟨4096, []⟩)).length = 16 :=
  ⟨by decide, by decide,
    (ALT_ENTRY_layout Form.asm 256 512 1 5 4 ⟨4096, []⟩ 1 nop_c
      (old_content_block nop_c sample_asm) (by decide) (by decide)).2.2.2.1⟩

/-! ## C3, C4: the predicate helpers -/

/-- C3: with `CONFIG_RISCV_ALTERNATIVE`, `use_alternative_likely` and
`use_alternative_unlikely` return true when their slot holds the replacement
instruction (the alternative was applied) and false when it holds the default
instruction, for every `vendor_id` and `patch_id`; without
`CONFIG_RISCV_ALTERNATIVE` both return false whatever the slot holds. -/
theorem use_alternative_iff_applied (vendor_id patch_id : Nat) (applied : Bool) (slot : Insn) :
    use_alternative_likely true vendor_id patch_id (likely_site.holds applied) = applied ∧
    use_alternative_unlikely true vendor_id patch_id (unlikely_site.holds applied) = applied ∧
    use_alternative_likely true vendor_id patch_id likely_site.new_content = true ∧
    use_alternative_likely true vendor_id patch_id likely_site.old_content = false ∧
    use_alternative_unlikely true vendor_id patch_id unlikely_site.new_content = true ∧
    use_alternative_unlikely true vendor_id patch_id unlikely_site.old_content = false ∧
    use_alternative_likely false vendor_id patch_id slot = false ∧
    use_alternative_unlikely false vendor_id patch_id slot = false := by
  cases applied <;> simp [use_alternative_likely, use_alternative_unlikely, likely_site,
    unlikely_site, Slot.holds]

/-- C4, as stated, fails: before patching the slot of `use_alternative_likely`
is not a `nop` but the jump `j no_alt`, and the slot of
`use_alternative_unlikely` is not a jump but a `nop`, with which the predicate
reads false, not true. -/
theorem unpatched_slots_not_as_claimed :
    likely_site.holds false ≠ Insn.nop ∧
    unlikely_site.holds false ≠ Insn.j ∧
    use_alternative_unlikely true 0 0 (unlikely_site.holds false) ≠ true := by
  decide

/-- C4, amended: before patching the slot of `use_alternative_likely` is the
unconditional jump to `no_alt` and the slot of `use_alternative_unlikely` is a
`nop` that falls through, and the predicate reads false in both; applying the
alternative of a slot replaces the jump by a `nop`, respectively the `nop` by a
jump, and the predicate then reads true in both. -/
theorem unpatched_slots_and_flip (vendor_id patch_id : Nat) :
    likely_site.holds false = Insn.j ∧
    use_alternative_likely true vendor_id patch_id (likely_site.holds false) = false ∧
    unlikely_site.holds false = Insn.nop ∧
    use_alternative_unlikely true vendor_id patch_id (unlikely_site.holds false) = false ∧
    likely_site.holds true = Insn.nop ∧
    use_alternative_likely true vendor_id patch_id (likely_site.holds true) = true ∧
    unlikely_site.holds true = Insn.j ∧
    use_alternative_unlikely true vendor_id patch_id (unlikely_site.holds true) = true := by
  simp [use_alternative_likely, use_alternative_unlikely, likely_site, unlikely_site,
    Slot.holds]

/-! ## Sites -/

theorem ALTERNATIVE_CFG_enabled (f : Form) (old_c new_c : Content) (v p en : Int) (s : Asm)
    (h : f.enabled en) :
    ALTERNATIVE_CFG f old_c new_c v p en s =
      if ((new_c site_opts).length : Int) = ((old_c site_opts).length : Int) then
        some { s with
          main := s.main.emit (old_c site_opts)
          sub1 := s.sub1.emit (new_c site_opts)
          alt := ALT_ENTRY f s.main.dot s.sub1.dot v p ((new_c site_opts).length : Int) s.alt
          l886 := s.main.dot
          l887 := s.main.dot + ((old_c site_opts).length : Int)
          l888 := s.sub1.dot
          l889 := s.sub1.dot + ((new_c site_opts).length : Int) }
      else none := by
  rw [ALTERNATIVE_CFG, ALT_NEW_CONTENT_enabled _ _ _ _ _ _ h, new_content_block_eq,
    old_content_block_eq]
  simp

theorem ALTERNATIVE_CFG_disabled (f : Form) (old_c new_c : Content) (v p en : Int) (s : Asm)
    (h : ¬ f.enabled en) :
    ALTERNATIVE_CFG f old_c new_c v p en s =
      some { s with
        main := s.main.emit (old_c site_opts)
        l886 := s.main.dot
        l887 := s.main.dot + ((old_c site_opts).length : Int) } := by
  rw [ALTERNATIVE_CFG, ALT_NEW_CONTENT_disabled _ _ _ _ _ _ h, old_content_block_eq]

theorem ALTERNATIVE_CFG_labels (f : Form) (old_c new_c : Content) (v p en : Int) (s t : Asm)
    (h : ALTERNATIVE_CFG f old_c new_c v p en s = some t) :
    t.l886 = s.main.dot ∧ t.l887 - t.l886 = ((old_c site_opts).length : Int) ∧
    t.main = s.main.emit (old_c site_opts) := by
  by_cases he : f.enabled en
  · rw [ALTERNATIVE_CFG_enabled _ _ _ _ _ _ _ he] at h
    split at h
    · cases h
      simp
    · cases h
  · rw [ALTERNATIVE_CFG_disabled _ _ _ _ _ _ _ he] at h
    cases h
    simp

theorem ALT_NEW_CONTENT_space (f : Form) (v p en : Int) (c : Content) (s t : Asm)
    (h : ALT_NEW_CONTENT f v p en c s = some t) (he : f.enabled en) :
    t.l888 = s.sub1.dot ∧ t.sub1.dot - t.l888 = s.l887 - s.l886 ∧
    t.l889 - t.l888 = s.l887 - s.l886 ∧
    t.sub1 = s.sub1.emit (c site_opts) ∧ t.l886 = s.l886 ∧ t.l887 = s.l887 ∧
    t.main = s.main ∧
    t.alt = ALT_ENTRY f s.l886 s.sub1.dot v p ((c site_opts).length : Int) s.alt := by
  rw [ALT_NEW_CONTENT_enabled _ _ _ _ _ _ he, new_content_block_eq] at h
  split at h
  · rename_i hl
    cases h
    simp [Sec.dot, Sec.emit]
    omega
  · cases h

theorem added_emit (s : Sec) (bytes : List Nat) : s.added (s.emit bytes) = bytes := by
  simp [Sec.added, Sec.emit]

/-! ## C5: space of a replacement -/

/-- C5: when a site assembles, the space each enabled replacement occupies in
subsection 1, from its label 888 to the location counter after the two `.org`
directives, equals the length 887 - 886 of the default block; for the one
replacement of `ALTERNATIVE_CFG` and for each of the two replacements of
`ALTERNATIVE_CFG_2` (whose second replacement starts where the first one
ends). -/
theorem replacement_space_eq_default_length (f : Form) (old_c new_c_1 : Content)
    (v1 p1 e1 : Int) (new_c_2 : Content) (v2 p2 e2 : Int) (s : Asm) :
    (∀ t, ALTERNATIVE_CFG f old_c new_c_1 v1 p1 e1 s = some t → f.enabled e1 →
      t.l888 = s.sub1.dot ∧ t.sub1.dot - t.l888 = t.l887 - t.l886 ∧
      t.l887 - t.l886 = ((old_c site_opts).length : Int)) ∧
    (∀ t', ALTERNATIVE_CFG_2 f old_c new_c_1 v1 p1 e1 new_c_2 v2 p2 e2 s = some t' →
      ∃ t, ALTERNATIVE_CFG f old_c new_c_1 v1 p1 e1 s = some t ∧
        ALT_NEW_CONTENT f v2 p2 e2 new_c_2 t = some t' ∧
        t'.l887 - t'.l886 = ((old_c site_opts).length : Int) ∧
        (f.enabled e1 →
          t.l888 = s.sub1.dot ∧ t.sub1.dot - t.l888 = t'.l887 - t'.l886) ∧
        (f.enabled e2 →
          t'.l888 = t.sub1.dot ∧ t'.sub1.dot - t'.l888 = t'.l887 - t'.l886)) := by
  have key : ∀ t, ALTERNATIVE_CFG f old_c new_c_1 v1 p1 e1 s = some t → f.enabled e1 →
      t.l888 = s.sub1.dot ∧ t.sub1.dot - t.l888 = t.l887 - t.l886 := by
    intro t h he
    have hs := ALT_NEW_CONTENT_space f v1 p1 e1 new_c_1 _ t h he
    exact ⟨by rw [hs.1, old_content_block_eq], by rw [hs.2.1, hs.2.2.2.2.1, hs.2.2.2.2.2.1]⟩
  refine ⟨fun t h he => ⟨(key t h he).1, (key t h he).2,
    (ALTERNATIVE_CFG_labels f old_c new_c_1 v1 p1 e1 s t h).2.1⟩, ?_⟩
  intro t' h
  unfold ALTERNATIVE_CFG_2 at h
  cases hmid : ALTERNATIVE_CFG f old_c new_c_1 v1 p1 e1 s with
  | none => rw [hmid] at h; cases h
  | some t =>
    rw [hmid] at h
    have h2 : ALT_NEW_CONTENT f v2 p2 e2 new_c_2 t = some t' := h
    have hl := ALTERNATIVE_CFG_labels f old_c new_c_1 v1 p1 e1 s t hmid
    have hlab : t'.l886 = t.l886 ∧ t'.l887 = t.l887 := by
      by_cases he2 : f.enabled e2
      · have hs := ALT_NEW_CONTENT_space f v2 p2 e2 new_c_2 t t' h2 he2
        exact ⟨hs.2.2.2.2.1, hs.2.2.2.2.2.1⟩
      · rw [ALT_NEW_CONTENT_disabled _ _ _ _ _ _ he2] at h2
        cases h2
        exact ⟨rfl, rfl⟩
    refine ⟨t, rfl, h2, by rw [hlab.1, hlab.2]; exact hl.2.1, ?_, ?_⟩
    · intro he1
      rw [hlab.1, hlab.2]
      exact key t hmid he1
    · intro he2
      have hs := ALT_NEW_CONTENT_space f v2 p2 e2 new_c_2 t t' h2 he2
      exact ⟨hs.1, by rw [hs.2.1, hlab.1, hlab.2]⟩

/-- C5 at a concrete site: default block and replacement block of one `nop`
each; the replacement occupies 4 bytes, the length of the default block. -/
theorem replacement_space_eq_default_length_witness :
    ∃ t, ALTERNATIVE_CFG Form.asm nop_c nop_c 1 5 1 sample_asm = some t ∧
      Form.enabled Form.asm 1 ∧ t.sub1.dot - t.l888 = 4 :=
  ⟨_, rfl, by decide,
    ((replacement_space_eq_default_length Form.asm nop_c nop_c 1 5 1 nop_c 2 7 1
      sample_asm).1 _ rfl (by decide)).2.1.trans
      (((replacement_space_eq_default_length Form.asm nop_c nop_c 1 5 1 nop_c 2 7 1
        sample_asm).1 _ rfl (by decide)).2.2.trans (by decide))⟩

/-! ## C6: no padding, equal lengths -/

/-- C6, as stated, fails: a default block of 4 bytes with an enabled
replacement of 8 bytes does not assemble, in either form, and neither does a
default block of 8 bytes with a replacement of 4 bytes: the shorter block is
not padded. -/
theorem unequal_lengths_do_not_assemble :
    (nop_c site_opts).length = 4 ∧ (nop2_c site_opts).length = 8 ∧
    (ALTERNATIVE_CFG Form.asm nop_c nop2_c 1 5 1 sample_asm).isSome = false ∧
    (ALTERNATIVE_CFG Form.cstr nop_c nop2_c 1 5 1 sample_asm).isSome = false ∧
    (ALTERNATIVE_CFG Form.asm nop2_c nop_c 1 5 1 sample_asm).isSome = false ∧
    (ALTERNATIVE_CFG Form.cstr nop2_c nop_c 1 5 1 sample_asm).isSome = false :=
  ⟨rfl, rfl, rfl, rfl, rfl, rfl⟩

/-- C6, amended: for a default block of length `o` and an enabled replacement of
length `n`, the site assembles exactly when `n = o`; nothing is padded: the
default slot then holds exactly the default block and the replacement slot
exactly the replacement block, and both occupy `max o n = o = n` bytes. -/
theorem site_assembles_iff_equal_lengths (f : Form) (old_c new_c : Content) (v p en : Int)
    (s : Asm) (he : f.enabled en) :
    ((ALTERNATIVE_CFG f old_c new_c v p en s).isSome ↔
      (new_c site_opts).length = (old_c site_opts).length) ∧
    ∀ t, ALTERNATIVE_CFG f old_c new_c v p en s = some t →
      t.l887 - t.l886 = ((max (old_c site_opts).length (new_c site_opts).length : Nat) : Int) ∧
      t.sub1.dot - t.l888
        = ((max (old_c site_opts).length (new_c site_opts).length : Nat) : Int) ∧
      s.main.added t.main = old_c site_opts ∧
      s.sub1.added t.sub1 = new_c site_opts := by
  rw [ALTERNATIVE_CFG_enabled _ _ _ _ _ _ _ he]
  by_cases hl : (new_c site_opts).length = (old_c site_opts).length
  · have hl' : ((new_c site_opts).length : Int) = ((old_c site_opts).length : Int) := by
      rw [hl]
    rw [if_pos hl']
    refine ⟨by simp [hl], ?_⟩
    intro t ht
    cases ht
    simp only [added_emit, hl, max_self]
    simp [Sec.dot, Sec.emit, hl]
  · have hl' : ¬ ((new_c site_opts).length : Int) = ((old_c site_opts).length : Int) := by
      intro h
      exact hl (by exact_mod_cast h)
    rw [if_neg hl']
    refine ⟨by simp [hl], ?_⟩
    intro t ht
    cases ht

/-- C6, amended, at a concrete site: default block and replacement block of one
`nop` each. -/
theorem site_assembles_iff_equal_lengths_witness :
    Form.enabled Form.cstr 1 ∧
    (ALTERNATIVE_CFG Form.cstr nop_c nop_c 1 5 1 sample_asm).isSome :=
  ⟨by decide,
    (site_assembles_iff_equal_lengths Form.cstr nop_c nop_c 1 5 1 sample_asm
      (by decide)).1.2 rfl⟩

theorem not_enabled_IS_ENABLED_false (f : Form) : ¬ f.enabled (IS_ENABLED false) := by
  cases f <;> simp [Form.enabled, IS_ENABLED]

theorem enabled_iff_eq_one (f : Form) (e : Int) (h : e = 0 ∨ e = 1) :
    f.enabled e ↔ e = 1 := by
  cases f
  · rcases h with h | h <;> simp [Form.enabled, h]
  · rfl

/-! ## C7: a site without an enabled replacement -/

/-- C7: a site whose replacement is not enabled, because its Kconfig flag is off
(`IS_ENABLED` is 0) or because `CONFIG_RISCV_ALTERNATIVE` is unset, assembles and
emits only the default block: `.alternative` and subsection 1 are left as they
were, for `ALTERNATIVE` and for `ALTERNATIVE_2`; a replacement whose flag is
off contributes nothing; and without `CONFIG_RISCV_ALTERNATIVE` the expansion is
`old_content` alone. -/
theorem disabled_site_emits_default_only (cfg : Bool) (f : Form)
    (old_c new_c_1 new_c_2 : Content) (v1 p1 v2 p2 : Int) (k1 k2 : Bool) (s : Asm) :
    ((cfg = false ∨ k1 = false) →
      ∃ t, ALTERNATIVE cfg f old_c new_c_1 v1 p1 k1 s = some t ∧
        t.alt = s.alt ∧ t.sub1 = s.sub1 ∧
        t.main = s.main.emit (old_c (if cfg then site_opts else s.opts))) ∧
    ((cfg = false ∨ (k1 = false ∧ k2 = false)) →
      ∃ t, ALTERNATIVE_2 cfg f old_c new_c_1 v1 p1 k1 new_c_2 v2 p2 k2 s = some t ∧
        t.alt = s.alt ∧ t.sub1 = s.sub1 ∧
        t.main = s.main.emit (old_c (if cfg then site_opts else s.opts))) ∧
    ALT_NEW_CONTENT f v1 p1 (IS_ENABLED false) new_c_1 s = some s ∧
    ALTERNATIVE false f old_c new_c_1 v1 p1 k1 s = some (s.in_main old_c) ∧
    ALTERNATIVE_2 false f old_c new_c_1 v1 p1 k1 new_c_2 v2 p2 k2 s
      = some (s.in_main old_c) := by
  have hd := not_enabled_IS_ENABLED_false f
  refine ⟨?_, ?_, ALT_NEW_CONTENT_disabled _ _ _ _ _ _ hd, rfl, rfl⟩
  · intro h
    cases cfg
    · exact ⟨_, rfl, rfl, rfl, rfl⟩
    · have hk : k1 = false := by simpa using h
      subst hk
      have e : ALTERNATIVE true f old_c new_c_1 v1 p1 false s = _ :=
        ALTERNATIVE_CFG_disabled f old_c new_c_1 v1 p1 _ s hd
      exact ⟨_, e, rfl, rfl, rfl⟩
  · intro h
    cases cfg
    · exact ⟨_, rfl, rfl, rfl, rfl⟩
    · have hk : k1 = false ∧ k2 = false := by simpa using h
      obtain ⟨hk1, hk2⟩ := hk
      subst hk1 hk2
      have e : ALTERNATIVE_2 true f old_c new_c_1 v1 p1 false new_c_2 v2 p2 false s
          = some { s with
              main := s.main.emit (old_c site_opts)
              l886 := s.main.dot
              l887 := s.main.dot + ((old_c site_opts).length : Int) } := by
        simp only [ALTERNATIVE_2, _ALTERNATIVE_CFG_2, if_true, ALTERNATIVE_CFG_2]
        rw [ALTERNATIVE_CFG_disabled _ _ _ _ _ _ _ hd, Option.some_bind,
          ALT_NEW_CONTENT_disabled _ _ _ _ _ _ hd]
      exact ⟨_, e, rfl, rfl, rfl⟩

/-- C7 at a concrete site whose Kconfig flag is off: nothing is added to
`.alternative` nor to subsection 1. -/
theorem disabled_site_emits_default_only_witness :
    ∃ t, ALTERNATIVE true Form.asm nop_c nop2_c 1 5 false sample_asm = some t ∧
      t.alt = sample_asm.alt ∧ t.sub1 = sample_asm.sub1 ∧
      t.main = sample_asm.main.emit (nop_c site_opts) :=
  (disabled_site_emits_default_only true Form.asm nop_c nop2_c nop2_c 1 5 2 7 false false
    sample_asm).1 (Or.inr rfl)

/-! ## C10: the `.org` pair -/

/-- C10: the pair of `.org` directives of `ALT_NEW_CONTENT` succeeds exactly
when the replacement length 889 - 888 equals the default length 887 - 886, and
it then leaves the state as it was (no padding byte is emitted, the location
counter does not move); this holds for the assembly form and for the C string
form, which issue the two directives in opposite order, so the two forms accept
the same lengths and end at the same location counter, and so do the two forms
of an enabled `ALT_NEW_CONTENT`. -/
theorem org_pair_succeeds_iff_equal_lengths (s : Asm) (v p : Int) (new_c : Content) :
    org_pair_asm s = (if s.l889 - s.l888 = s.l887 - s.l886 then some s else none) ∧
    org_pair_c s = (if s.l889 - s.l888 = s.l887 - s.l886 then some s else none) ∧
    ((org_pair_asm s).isSome ↔ s.l889 - s.l888 = s.l887 - s.l886) ∧
    ((org_pair_c s).isSome ↔ s.l889 - s.l888 = s.l887 - s.l886) ∧
    org_pair_asm s = org_pair_c s ∧
    (∀ t, org_pair_asm s = some t → t.sub1.data = s.sub1.data ∧ t.sub1.dot = s.sub1.dot) ∧
    (∀ t, org_pair_c s = some t → t.sub1.data = s.sub1.data ∧ t.sub1.dot = s.sub1.dot) ∧
    ((ALT_NEW_CONTENT_asm v p 1 new_c s).isSome ↔
      ((new_c site_opts).length : Int) = s.l887 - s.l886) ∧
    ALT_NEW_CONTENT_asm v p 1 new_c s = ALT_NEW_CONTENT_c v p 1 new_c s := by
  have ha := org_pair_asm_eq s
  have hc := org_pair_c_eq s
  have henA : Form.enabled Form.asm 1 := by decide
  have henC : Form.enabled Form.cstr 1 := by decide
  have hA := ALT_NEW_CONTENT_enabled Form.asm v p 1 new_c s henA
  have hC := ALT_NEW_CONTENT_enabled Form.cstr v p 1 new_c s henC
  simp only [ALT_NEW_CONTENT] at hA hC
  refine ⟨ha, hc, ?_, ?_, by rw [ha, hc], ?_, ?_, ?_, ?_⟩
  · rw [ha]; split <;> simp [*]
  · rw [hc]; split <;> simp [*]
  · intro t ht
    rw [ha] at ht
    split at ht
    · cases ht; exact ⟨rfl, rfl⟩
    · cases ht
  · intro t ht
    rw [hc] at ht
    split at ht
    · cases ht; exact ⟨rfl, rfl⟩
    · cases ht
  · rw [hA]; split <;> simp [*]
  · rw [hA, hC]
    rfl

/-- C10 at a concrete state, after a default block and a replacement block of
one `nop` each: the pair succeeds and emits nothing. -/
theorem org_pair_succeeds_iff_equal_lengths_witness :
    org_pair_asm (new_content_block ALT_ENTRY_asm 1 5 nop_c (old_content_block nop_c sample_asm))
      = some (new_content_block ALT_ENTRY_asm 1 5 nop_c (old_content_block nop_c sample_asm)) ∧
    (new_content_block ALT_ENTRY_asm 1 5 nop_c (old_content_block nop_c sample_asm)).sub1.data
      = [0x13, 0x00, 0x00, 0x00] :=
  ⟨((org_pair_succeeds_iff_equal_lengths
      (new_content_block ALT_ENTRY_asm 1 5 nop_c (old_content_block nop_c sample_asm))
      1 5 nop_c).1).trans (if_pos (by decide)), rfl⟩

/-! ## C9: the records of a two-replacement site -/

theorem ALTERNATIVE_CFG_2_both (f : Form) (old_c c1 : Content) (v1 p1 e1 : Int)
    (c2 : Content) (v2 p2 e2 : Int) (s : Asm) (he1 : f.enabled e1) (he2 : f.enabled e2)
    (h1 : (c1 site_opts).length = (old_c site_opts).length)
    (h2 : (c2 site_opts).length = (old_c site_opts).length) :
    ALTERNATIVE_CFG_2 f old_c c1 v1 p1 e1 c2 v2 p2 e2 s =
      some { s with
        main := s.main.emit (old_c site_opts)
        sub1 := (s.sub1.emit (c1 site_opts)).emit (c2 site_opts)
        alt := ALT_ENTRY f s.main.dot (s.sub1.dot + ((c1 site_opts).length : Int)) v2 p2
          ((c2 site_opts).length : Int)
          (ALT_ENTRY f s.main.dot s.sub1.dot v1 p1 ((c1 site_opts).length : Int) s.alt)
        l886 := s.main.dot
        l887 := s.main.dot + ((old_c site_opts).length : Int)
        l888 := s.sub1.dot + ((c1 site_opts).length : Int)
        l889 := s.sub1.dot + ((c1 site_opts).length : Int) + ((c2 site_opts).length : Int) } := by
  rw [ALTERNATIVE_CFG_2, ALTERNATIVE_CFG_enabled _ _ _ _ _ _ _ he1, if_pos (by rw [h1]),
    Option.some_bind, ALT_NEW_CONTENT_enabled _ _ _ _ _ _ he2, new_content_block_eq]
  simp [h2, Sec.dot, Sec.emit, add_assoc]

theorem ALTERNATIVE_CFG_2_first (f : Form) (old_c c1 : Content) (v1 p1 e1 : Int)
    (c2 : Content) (v2 p2 e2 : Int) (s : Asm) (he1 : f.enabled e1) (he2 : ¬ f.enabled e2)
    (h1 : (c1 site_opts).length = (old_c site_opts).length) :
    ALTERNATIVE_CFG_2 f old_c c1 v1 p1 e1 c2 v2 p2 e2 s =
      some { s with
        main := s.main.emit (old_c site_opts)
        sub1 := s.sub1.emit (c1 site_opts)
        alt := ALT_ENTRY f s.main.dot s.sub1.dot v1 p1 ((c1 site_opts).length : Int) s.alt
        l886 := s.main.dot
        l887 := s.main.dot + ((old_c site_opts).length : Int)
        l888 := s.sub1.dot
        l889 := s.sub1.dot + ((c1 site_opts).length : Int) } := by
  rw [ALTERNATIVE_CFG_2, ALTERNATIVE_CFG_enabled _ _ _ _ _ _ _ he1, if_pos (by rw [h1]),
    Option.some_bind, ALT_NEW_CONTENT_disabled _ _ _ _ _ _ he2]

theorem ALTERNATIVE_CFG_2_second (f : Form) (old_c c1 : Content) (v1 p1 e1 : Int)
    (c2 : Content) (v2 p2 e2 : Int) (s : Asm) (he1 : ¬ f.enabled e1) (he2 : f.enabled e2)
    (h2 : (c2 site_opts).length = (old_c site_opts).length) :
    ALTERNATIVE_CFG_2 f old_c c1 v1 p1 e1 c2 v2 p2 e2 s =
      some { s with
        main := s.main.emit (old_c site_opts)
        sub1 := s.sub1.emit (c2 site_opts)
        alt := ALT_ENTRY f s.main.dot s.sub1.dot v2 p2 ((c2 site_opts).length : Int) s.alt
        l886 := s.main.dot
        l887 := s.main.dot + ((old_c site_opts).length : Int)
        l888 := s.sub1.dot
        l889 := s.sub1.dot + ((c2 site_opts).length : Int) } := by
  rw [ALTERNATIVE_CFG_2, ALTERNATIVE_CFG_disabled _ _ _ _ _ _ _ he1,
    Option.some_bind, ALT_NEW_CONTENT_enabled _ _ _ _ _ _ he2, new_content_block_eq]
  simp [h2]

theorem ALTERNATIVE_CFG_2_none (f : Form) (old_c c1 : Content) (v1 p1 e1 : Int)
    (c2 : Content) (v2 p2 e2 : Int) (s : Asm) (he1 : ¬ f.enabled e1) (he2 : ¬ f.enabled e2) :
    ALTERNATIVE_CFG_2 f old_c c1 v1 p1 e1 c2 v2 p2 e2 s =
      some { s with
        main := s.main.emit (old_c site_opts)
        l886 := s.main.dot
        l887 := s.main.dot + ((old_c site_opts).length : Int) } := by
  rw [ALTERNATIVE_CFG_2, ALTERNATIVE_CFG_disabled _ _ _ _ _ _ _ he1,
    Option.some_bind, ALT_NEW_CONTENT_disabled _ _ _ _ _ _ he2]

theorem added_ALT_ENTRY_twice (f : Form) (O N v p l O' N' v' p' l' : Int) (s : Sec) :
    s.added (ALT_ENTRY f O' N' v' p' l' (ALT_ENTRY f O N v p l s)) =
      s.added (ALT_ENTRY f O N v p l s) ++
        (ALT_ENTRY f O N v p l s).added (ALT_ENTRY f O' N' v' p' l' (ALT_ENTRY f O N v p l s)) := by
  rw [added_ALT_ENTRY, added_ALT_ENTRY]
  rw [Sec.added, ALT_ENTRY_data, ALT_ENTRY_data, List.append_assoc, List.drop_left]

theorem added_self (s : Sec) : s.added s = [] := by
  simp [Sec.added]

/-- C9: an `ALTERNATIVE_CFG_2` site with enable flags `e1`, `e2` in {0, 1},
whose enabled replacements have the length of the default block (the sites that
assemble), assembles and appends `e1 + e2` records of 16 bytes to
`.alternative`.  A single enabled replacement has the one record, with its own
`vendor_id`, `patch_id` and length; with both enabled the record of
(`vendor_id_1`, `patch_id_1`) comes first and the record of (`vendor_id_2`,
`patch_id_2`) second, each holding its own `vendor_id`, `patch_id` and
replacement length (reduced to the width of the field), and the `old_offset` of
both is computed from, and where it fits 32 bits resolves to, the same label
886 of the default block. -/
theorem ALTERNATIVE_CFG_2_records (f : Form) (old_c c1 : Content) (v1 p1 e1 : Int)
    (c2 : Content) (v2 p2 e2 : Int) (s : Asm)
    (he1 : e1 = 0 ∨ e1 = 1) (he2 : e2 = 0 ∨ e2 = 1)
    (h1 : e1 = 1 → (c1 site_opts).length = (old_c site_opts).length)
    (h2 : e2 = 1 → (c2 site_opts).length = (old_c site_opts).length) :
    ∃ t, ALTERNATIVE_CFG_2 f old_c c1 v1 p1 e1 c2 v2 p2 e2 s = some t ∧
      t.alt.base = s.alt.base ∧
      t.alt.data = s.alt.data ++ s.alt.added t.alt ∧
      ((s.alt.added t.alt).length : Int) = 16 * (e1 + e2) ∧
      t.l886 = s.main.dot ∧
      (e1 = 1 → e2 = 0 →
        t.alt = ALT_ENTRY f t.l886 s.sub1.dot v1 p1 ((c1 site_opts).length : Int) s.alt) ∧
      (e1 = 0 → e2 = 1 →
        t.alt = ALT_ENTRY f t.l886 s.sub1.dot v2 p2 ((c2 site_opts).length : Int) s.alt) ∧
      (e1 = 1 → e2 = 1 →
        t.alt = ALT_ENTRY f t.l886 (s.sub1.dot + ((c1 site_opts).length : Int)) v2 p2
          ((c2 site_opts).length : Int)
          (ALT_ENTRY f t.l886 s.sub1.dot v1 p1 ((c1 site_opts).length : Int) s.alt) ∧
        decodeEntry ((s.alt.added t.alt).take 16) =
          { old_offset := s32 (trunc 4 (t.l886 - s.alt.dot))
            new_offset := s32 (trunc 4 (s.sub1.dot - (s.alt.dot + 4)))
            vendor_id := trunc 2 v1
            new_length := trunc 2 ((c1 site_opts).length : Int)
            patch_id := trunc 4 p1 } ∧
        decodeEntry ((s.alt.added t.alt).drop 16) =
          { old_offset := s32 (trunc 4 (t.l886 - (s.alt.dot + 16)))
            new_offset := s32 (trunc 4
              (s.sub1.dot + ((c1 site_opts).length : Int) - (s.alt.dot + 16 + 4)))
            vendor_id := trunc 2 v2
            new_length := trunc 2 ((c2 site_opts).length : Int)
            patch_id := trunc 4 p2 } ∧
        (fits_s32 (t.l886 - s.alt.dot) → fits_s32 (t.l886 - (s.alt.dot + 16)) →
          s.alt.dot + (decodeEntry ((s.alt.added t.alt).take 16)).old_offset = t.l886 ∧
          (s.alt.dot + 16) + (decodeEntry ((s.alt.added t.alt).drop 16)).old_offset
            = t.l886)) := by
  have en1 : f.enabled (1 : Int) := (enabled_iff_eq_one f 1 (Or.inr rfl)).2 rfl
  have en0 : ¬ f.enabled (0 : Int) := fun h => by
    have := (enabled_iff_eq_one f 0 (Or.inl rfl)).1 h
    omega
  rcases he1 with rfl | rfl <;> rcases he2 with rfl | rfl
  · refine ⟨_, ALTERNATIVE_CFG_2_none f old_c c1 v1 p1 0 c2 v2 p2 0 s en0 en0, rfl, ?_, ?_, rfl,
      ?_, ?_, ?_⟩
    · simp [added_self]
    · simp [added_self]
    · intro h; omega
    · intro h; omega
    · intro h; omega
  · refine ⟨_, ALTERNATIVE_CFG_2_second f old_c c1 v1 p1 0 c2 v2 p2 1 s en0 en1 (h2 rfl),
      ALT_ENTRY_base .., ?_, ?_, rfl, ?_, ?_, ?_⟩
    · rw [added_ALT_ENTRY, ALT_ENTRY_data]
    · simp [length_added_ALT_ENTRY]
    · intro h; omega
    · intro _ _; rfl
    · intro h; omega
  · refine ⟨_, ALTERNATIVE_CFG_2_first f old_c c1 v1 p1 1 c2 v2 p2 0 s en1 en0 (h1 rfl),
      ALT_ENTRY_base .., ?_, ?_, rfl, ?_, ?_, ?_⟩
    · rw [added_ALT_ENTRY, ALT_ENTRY_data]
    · simp [length_added_ALT_ENTRY]
    · intro _ _; rfl
    · intro h; omega
    · intro _ h; omega
  · have hlen16 : ∀ (O N v p l : Int) (r : Sec),
        (r.added (ALT_ENTRY f O N v p l r)).length = 16 :=
      fun O N v p l r => length_added_ALT_ENTRY f O N v p l r
    have htake : ∀ (a b : List Nat), a.length = 16 → (a ++ b).take 16 = a := by
      intro a b h
      rw [← h, List.take_left]
    have hdrop : ∀ (a b : List Nat), a.length = 16 → (a ++ b).drop 16 = b := by
      intro a b h
      rw [← h, List.drop_left]
    refine ⟨_, ALTERNATIVE_CFG_2_both f old_c c1 v1 p1 1 c2 v2 p2 1 s en1 en1 (h1 rfl) (h2 rfl),
      ?_, ?_, ?_, rfl, ?_, ?_, ?_⟩
    · simp only [ALT_ENTRY_base]
    · simp only [added_ALT_ENTRY_twice, added_ALT_ENTRY, ALT_ENTRY_data, List.append_assoc]
    · simp [added_ALT_ENTRY_twice, hlen16]
    · intro _ h; omega
    · intro h; omega
    · intro _ _
      have d1 : decodeEntry ((s.alt.added
          (ALT_ENTRY f s.main.dot (s.sub1.dot + ((c1 site_opts).length : Int)) v2 p2
            ((c2 site_opts).length : Int)
            (ALT_ENTRY f s.main.dot s.sub1.dot v1 p1 ((c1 site_opts).length : Int)
              s.alt))).take 16) =
            { old_offset := s32 (trunc 4 (s.main.dot - s.alt.dot))
              new_offset := s32 (trunc 4 (s.sub1.dot - (s.alt.dot + 4)))
              vendor_id := trunc 2 v1
              new_length := trunc 2 ((c1 site_opts).length : Int)
              patch_id := trunc 4 p1 } := by
        rw [added_ALT_ENTRY_twice, htake _ _ (hlen16 ..)]
        exact decode_added_ALT_ENTRY ..
      have d2 : decodeEntry ((s.alt.added
          (ALT_ENTRY f s.main.dot (s.sub1.dot + ((c1 site_opts).length : Int)) v2 p2
            ((c2 site_opts).length : Int)
            (ALT_ENTRY f s.main.dot s.sub1.dot v1 p1 ((c1 site_opts).length : Int)
              s.alt))).drop 16) =
            { old_offset := s32 (trunc 4 (s.main.dot
                - (ALT_ENTRY f s.main.dot s.sub1.dot v1 p1 ((c1 site_opts).length : Int)
                    s.alt).dot))
              new_offset := s32 (trunc 4 (s.sub1.dot + ((c1 site_opts).length : Int)
                - ((ALT_ENTRY f s.main.dot s.sub1.dot v1 p1 ((c1 site_opts).length : Int)
                    s.alt).dot + 4)))
              vendor_id := trunc 2 v2
              new_length := trunc 2 ((c2 site_opts).length : Int)
              patch_id := trunc 4 p2 } := by
        rw [added_ALT_ENTRY_twice, hdrop _ _ (hlen16 ..)]
        exact decode_added_ALT_ENTRY ..
      refine ⟨rfl, d1, ?_, ?_⟩
      · rw [d2, ALT_ENTRY_dot]
      · intro hf1 hf2
        rw [d1, d2, ALT_ENTRY_dot]
        simp only [s32_trunc4 _ hf1, s32_trunc4 _ hf2]
        constructor <;> omega

/-- C9 at a concrete site with both replacements enabled and every block one
`nop`: two records are appended. -/
theorem ALTERNATIVE_CFG_2_records_witness :
    ∃ t, ALTERNATIVE_CFG_2 Form.asm nop_c nop_c 1 5 1 nop_c 2 7 1 sample_asm = some t ∧
      ((sample_asm.alt.added t.alt).length : Int) = 16 * (1 + 1) := by
  obtain ⟨t, ht, _, _, hlen, _⟩ :=
    ALTERNATIVE_CFG_2_records Form.asm nop_c nop_c 1 5 1 nop_c 2 7 1 sample_asm
      (Or.inr rfl) (Or.inr rfl) (fun _ => rfl) (fun _ => rfl)
  exact ⟨t, ht, hlen⟩

end RiscvAlternative

namespace CombPhy

/-! ## C8: PHY types other than USB3 -/

theorem set_mode_other (k : Consts) (priv : spacemit_combphy_priv) (hw : Hw)
    (ht : priv.type ≠ k.PHY_TYPE_USB3) :
    spacemit_combphy_set_mode k priv hw = (-k.EINVAL, hw) := by
  simp [spacemit_combphy_set_mode, ht]

theorem set_mode_usb3 (k : Consts) (priv : spacemit_combphy_priv) (hw : Hw)
    (ht : priv.type = k.PHY_TYPE_USB3) :
    spacemit_combphy_set_mode k priv hw =
      (0, regmap_update_bits_sel 0 COMBPHY_MODE_SEL_MASK COMBPHY_MODE_USB hw) := by
  simp [spacemit_combphy_set_mode, ht]

/-- C8: for every PHY type other than `PHY_TYPE_USB3`, `spacemit_combphy_init`
returns `-EINVAL` and leaves the hardware state as it was: no call is made, so
the mode-select register is not written, the PHY reset is not deasserted and no
control register is written; and `spacemit_combphy_set_mode` returns 0 exactly
when the type is `PHY_TYPE_USB3`.  `EINVAL` and `PHY_TYPE_USB3` come from
headers outside the source files; `EINVAL` is a non-zero error number. -/
theorem init_rejects_other_types (k : Consts) (out : Outcome)
    (priv priv' : spacemit_combphy_priv) (hw : Hw)
    (hE : k.EINVAL ≠ 0) (ht : priv.type ≠ k.PHY_TYPE_USB3) :
    spacemit_combphy_init k out priv hw = (-k.EINVAL, hw) ∧
    (spacemit_combphy_init k out priv hw).1 = -k.EINVAL ∧
    (spacemit_combphy_init k out priv hw).2.calls = hw.calls ∧
    (spacemit_combphy_init k out priv hw).2.regmap_sel = hw.regmap_sel ∧
    (spacemit_combphy_init k out priv hw).2.regmap_ctrl = hw.regmap_ctrl ∧
    (spacemit_combphy_init k out priv hw).2.rst_asserted = hw.rst_asserted ∧
    ((spacemit_combphy_set_mode k priv' hw).1 = 0 ↔ priv'.type = k.PHY_TYPE_USB3) := by
  have hinit : spacemit_combphy_init k out priv hw = (-k.EINVAL, hw) := by
    have hne : -k.EINVAL ≠ 0 := by omega
    simp only [spacemit_combphy_init, set_mode_other k priv hw ht]
    rw [if_pos hne]
  refine ⟨hinit, by rw [hinit], by rw [hinit], by rw [hinit], by rw [hinit], by rw [hinit], ?_⟩
  by_cases h : priv'.type = k.PHY_TYPE_USB3
  · simp [set_mode_usb3 k priv' hw h, h]
  · simp only [set_mode_other k priv' hw h, h, iff_false]
    omega

/-- C8 with the kernel's values `PHY_TYPE_USB3 = 4` and `EINVAL = 22`, for the
types `PHY_TYPE_PCIE = 2` and `PHY_NONE = 0`: the result is -22 and no call is
made. -/
theorem init_rejects_other_types_witness :
    (22 : Int) ≠ 0 ∧ (2 : Nat) ≠ 4 ∧
    (spacemit_combphy_init ⟨4, 22⟩ ⟨0, 0⟩ ⟨false, 3, 2⟩
      ⟨fun _ => 0, fun _ => 0, true, []⟩).1 = -22 ∧
    (spacemit_combphy_init ⟨4, 22⟩ ⟨0, 0⟩ ⟨false, 3, 2⟩
      ⟨fun _ => 0, fun _ => 0, true, []⟩).2.calls = [] ∧
    (spacemit_combphy_init ⟨4, 22⟩ ⟨0, 0⟩ ⟨false, 3, 0⟩
      ⟨fun _ => 0, fun _ => 0, true, []⟩).1 = -22 :=
  ⟨by decide, by decide,
    (init_rejects_other_types ⟨4, 22⟩ ⟨0, 0⟩ ⟨false, 3, 2⟩ ⟨false, 3, 2⟩
      ⟨fun _ => 0, fun _ => 0, true, []⟩ (by decide) (by decide)).2.1,
    (init_rejects_other_types ⟨4, 22⟩ ⟨0, 0⟩ ⟨false, 3, 2⟩ ⟨false, 3, 2⟩
      ⟨fun _ => 0, fun _ => 0, true, []⟩ (by decide) (by decide)).2.2.1,
    (init_rejects_other_types ⟨4, 22⟩ ⟨0, 0⟩ ⟨false, 3, 0⟩ ⟨false, 3, 0⟩
      ⟨fun _ => 0, fun _ => 0, true, []⟩ (by decide) (by decide)).2.1⟩

end CombPhy

namespace CombPhy

/-! ## C11: the result of init and the reset line -/

theorem init_other (k : Consts) (out : Outcome) (priv : spacemit_combphy_priv) (hw : Hw)
    (hE : k.EINVAL ≠ 0) (ht : priv.type ≠ k.PHY_TYPE_USB3) :
    spacemit_combphy_init k out priv hw = (-k.EINVAL, hw) := by
  have hne : -k.EINVAL ≠ 0 := by omega
  simp only [spacemit_combphy_init, set_mode_other k priv hw ht]
  rw [if_pos hne]

theorem init_usb3_deassert_failed (k : Consts) (out : Outcome) (priv : spacemit_combphy_priv)
    (hw : Hw) (ht : priv.type = k.PHY_TYPE_USB3) (hd : out.deassert_ret ≠ 0) :
    spacemit_combphy_init k out priv hw =
      (out.deassert_ret,
        { regmap_sel := (regmap_update_bits_sel 0 COMBPHY_MODE_SEL_MASK COMBPHY_MODE_USB
            hw).regmap_sel
          regmap_ctrl := hw.regmap_ctrl
          rst_asserted := true
          calls := hw.calls ++ [Op.sel_update_bits 0 COMBPHY_MODE_SEL_MASK COMBPHY_MODE_USB,
            Op.reset_deassert, Op.reset_assert] }) := by
  simp [spacemit_combphy_init, set_mode_usb3 k priv hw ht, reset_control_deassert,
    reset_control_assert, regmap_update_bits_sel, hd]

theorem init_usb3_poll_failed (k : Consts) (out : Outcome) (priv : spacemit_combphy_priv)
    (hw : Hw) (ht : priv.type = k.PHY_TYPE_USB3) (hd : out.deassert_ret = 0)
    (hp : out.poll_ret ≠ 0) :
    (spacemit_combphy_init k out priv hw).1 = out.poll_ret ∧
    (spacemit_combphy_init k out priv hw).2.rst_asserted = true ∧
    (spacemit_combphy_init k out priv hw).2.calls =
      hw.calls ++ [Op.sel_update_bits 0 COMBPHY_MODE_SEL_MASK COMBPHY_MODE_USB,
        Op.reset_deassert,
        Op.ctrl_write COMBPHY_USB_REG1 COMBPHY_USB_REG1_VAL,
        Op.ctrl_write COMBPHY_USB_REG2 COMBPHY_USB_REG2_VAL,
        Op.ctrl_write COMBPHY_USB_REG3 COMBPHY_USB_REG3_VAL,
        Op.ctrl_write COMBPHY_USB_REG4 COMBPHY_USB_REG4_VAL,
        Op.ctrl_read_poll COMBPHY_USB_PLL_REG,
        Op.reset_assert] := by
  simp [spacemit_combphy_init, set_mode_usb3 k priv hw ht, reset_control_deassert,
    reset_control_assert, regmap_update_bits_sel, hd, ht, spacemit_combphy_init_usb,
    regmap_write_ctrl, regmap_read_poll_timeout_ctrl, hp]

theorem init_usb3_ok (k : Consts) (out : Outcome) (priv : spacemit_combphy_priv)
    (hw : Hw) (ht : priv.type = k.PHY_TYPE_USB3) (hd : out.deassert_ret = 0)
    (hp : out.poll_ret = 0) :
    (spacemit_combphy_init k out priv hw).1 = 0 ∧
    (spacemit_combphy_init k out priv hw).2.rst_asserted = false ∧
    (spacemit_combphy_init k out priv hw).2.calls =
      hw.calls ++ ([Op.sel_update_bits 0 COMBPHY_MODE_SEL_MASK COMBPHY_MODE_USB,
        Op.reset_deassert,
        Op.ctrl_write COMBPHY_USB_REG1 COMBPHY_USB_REG1_VAL,
        Op.ctrl_write COMBPHY_USB_REG2 COMBPHY_USB_REG2_VAL,
        Op.ctrl_write COMBPHY_USB_REG3 COMBPHY_USB_REG3_VAL,
        Op.ctrl_write COMBPHY_USB_REG4 COMBPHY_USB_REG4_VAL,
        Op.ctrl_read_poll COMBPHY_USB_PLL_REG,
        Op.ctrl_update_bits COMBPHY_USB_LFPS_REG COMBPHY_USB_LFPS_MASK
          (priv.lfps_threshold <<< 8)] ++
        (if priv.rx_always_on then
          [Op.ctrl_update_bits COMBPHY_USB_REG4 COMBPHY_USB_TERM_SHORT_MASK
            COMBPHY_USB_TERM_SHORT_VAL]
        else [])) := by
  cases hrx : priv.rx_always_on <;>
  simp [spacemit_combphy_init, set_mode_usb3 k priv hw ht, reset_control_deassert,
    reset_control_assert, regmap_update_bits_sel, hd, ht, spacemit_combphy_init_usb,
    regmap_write_ctrl, regmap_read_poll_timeout_ctrl, hp, regmap_update_bits_ctrl, hrx]

theorem calls_since_of_append (hw hw' : Hw) (l : List Op) (h : hw'.calls = hw.calls ++ l) :
    hw.calls_since hw' = l := by
  rw [Hw.calls_since, h, List.drop_left]

/-- C11: on explicit state and for every outcome of `reset_control_deassert`
and of the PLL poll, `spacemit_combphy_init` returns 0 only if the type is
`PHY_TYPE_USB3`, the deassert returned 0 and the poll returned 0 (and it does
return 0 then, with the reset released).  Whenever it returns a non-zero error
and `reset_control_deassert` is among the calls it made, the last call it made
on the reset line, which is also its last call, is `reset_control_assert`, and
the reset line is asserted in the state it leaves; an error returned without
that call leaves the state untouched.  `EINVAL` comes from a header outside
the source files and is a non-zero error number. -/
theorem init_ok_only_if_and_error_reasserts (k : Consts) (out : Outcome)
    (priv : spacemit_combphy_priv) (hw : Hw) (hE : k.EINVAL ≠ 0) :
    ((spacemit_combphy_init k out priv hw).1 = 0 →
      priv.type = k.PHY_TYPE_USB3 ∧ out.deassert_ret = 0 ∧ out.poll_ret = 0) ∧
    (priv.type = k.PHY_TYPE_USB3 → out.deassert_ret = 0 → out.poll_ret = 0 →
      (spacemit_combphy_init k out priv hw).1 = 0 ∧
      (spacemit_combphy_init k out priv hw).2.rst_asserted = false) ∧
    (spacemit_combphy_init k out priv hw).2.calls
      = hw.calls ++ hw.calls_since (spacemit_combphy_init k out priv hw).2 ∧
    ((spacemit_combphy_init k out priv hw).1 ≠ 0 →
      Op.reset_deassert ∈ hw.calls_since (spacemit_combphy_init k out priv hw).2 →
      last_reset_op (hw.calls_since (spacemit_combphy_init k out priv hw).2)
        = some Op.reset_assert ∧
      (hw.calls_since (spacemit_combphy_init k out priv hw).2).getLast?
        = some Op.reset_assert ∧
      (spacemit_combphy_init k out priv hw).2.rst_asserted = true) ∧
    ((spacemit_combphy_init k out priv hw).1 ≠ 0 →
      Op.reset_deassert ∉ hw.calls_since (spacemit_combphy_init k out priv hw).2 →
      (spacemit_combphy_init k out priv hw).2 = hw) := by
  by_cases ht : priv.type = k.PHY_TYPE_USB3
  · by_cases hd : out.deassert_ret = 0
    · by_cases hp : out.poll_ret = 0
      · obtain ⟨h1, h2, h3⟩ := init_usb3_ok k out priv hw ht hd hp
        have hc := calls_since_of_append hw _ _ h3
        refine ⟨fun _ => ⟨ht, hd, hp⟩, fun _ _ _ => ⟨h1, h2⟩, ?_, ?_, ?_⟩
        · rw [hc, h3]
        · intro hne; exact absurd h1 hne
        · intro hne; exact absurd h1 hne
      · obtain ⟨h1, h2, h3⟩ := init_usb3_poll_failed k out priv hw ht hd hp
        have hc := calls_since_of_append hw _ _ h3
        refine ⟨?_, fun _ _ h => absurd h hp, ?_, ?_, ?_⟩
        · intro h0; rw [h1] at h0; exact absurd h0 hp
        · rw [hc, h3]
        · intro _ _
          rw [hc]
          exact ⟨rfl, rfl, h2⟩
        · intro _ hnot
          rw [hc] at hnot
          exact absurd (by simp) hnot
    · have h := init_usb3_deassert_failed k out priv hw ht hd
      have h3 : (spacemit_combphy_init k out priv hw).2.calls =
          hw.calls ++ [Op.sel_update_bits 0 COMBPHY_MODE_SEL_MASK COMBPHY_MODE_USB,
            Op.reset_deassert, Op.reset_assert] := by rw [h]
      have hc := calls_since_of_append hw _ _ h3
      refine ⟨?_, fun _ h' _ => absurd h' hd, ?_, ?_, ?_⟩
      · intro h0; rw [h] at h0; exact absurd h0 hd
      · rw [hc, h3]
      · intro _ _
        rw [hc]
        exact ⟨rfl, rfl, by rw [h]⟩
      · intro _ hnot
        rw [hc] at hnot
        exact absurd (by simp) hnot
  · have h := init_other k out priv hw hE ht
    have h3 : (spacemit_combphy_init k out priv hw).2.calls = hw.calls ++ [] := by
      rw [h, List.append_nil]
    have hc := calls_since_of_append hw _ _ h3
    refine ⟨?_, fun h' _ _ => absurd h' ht, ?_, ?_, ?_⟩
    · intro h0
      rw [h] at h0
      have : -k.EINVAL = 0 := h0
      omega
    · rw [hc, h3]
    · intro _ hin
      rw [hc] at hin
      cases hin
    · intro _ _
      rw [h]

/-- C11 with the kernel's values `PHY_TYPE_USB3 = 4` and `EINVAL = 22`, for a
USB3 PHY whose PLL poll times out (-110): the error is returned and the last
call on the reset line is `reset_control_assert`. -/
theorem init_ok_only_if_and_error_reasserts_witness :
    (22 : Int) ≠ 0 ∧
    (spacemit_combphy_init ⟨4, 22⟩ ⟨0, -110⟩ ⟨true, 3, 4⟩ sample_hw).1 ≠ 0 ∧
    Op.reset_deassert ∈
      sample_hw.calls_since (spacemit_combphy_init ⟨4, 22⟩ ⟨0, -110⟩ ⟨true, 3, 4⟩ sample_hw).2 ∧
    last_reset_op
      (sample_hw.calls_since (spacemit_combphy_init ⟨4, 22⟩ ⟨0, -110⟩ ⟨true, 3, 4⟩ sample_hw).2)
      = some Op.reset_assert ∧
    (spacemit_combphy_init ⟨4, 22⟩ ⟨0, -110⟩ ⟨true, 3, 4⟩ sample_hw).2.rst_asserted = true :=
  have h := (init_ok_only_if_and_error_reasserts ⟨4, 22⟩ ⟨0, -110⟩ ⟨true, 3, 4⟩ sample_hw
    (by decide)).2.2.2.1 (by decide) (by decide)
  ⟨by decide, by decide, by decide, h.1, h.2.2⟩

end CombPhy
